import Mathlib

/-!
# Verification of the NutriCook parsing and scoring core

A shallow embedding, in Lean 4, of the pure text-parsing and scoring
functions of the NutriCook web application (`app.py`, `database.py`):

* `calculate_meal_score` — keyword scoring of a healthiness assessment;
* `apply_rule_engine`    — the five-rule nutrition rule table;
* `parse_multi_recipes`  — the marker-delimited multi-recipe response parser;
* the checker response field extraction (three `re.search` calls);
* the checker flow's two persistence writes (`add_checked_meal`,
  `update_user_score`), modelled as pure updates of an explicit state.

Python strings are modelled as `String`/`List Char`; Python's
case-insensitive operations are modelled per character (`Char.toLower`),
which agrees with CPython on all ASCII text. Machine-level details that the
program never relies on (full Unicode case folding, float nutrient values)
are outside the model; nutrient amounts are embedded as `Int`.
-/

/-! ## Python string primitives -/

/-- Python's `\s` / `str.isspace` for the ASCII range: space, tab, newline,
carriage return, vertical tab, form feed. -/
def pyIsSpace (c : Char) : Bool :=
  c == ' ' || c == '\t' || c == '\n' || c == '\r' || c == '\x0b' || c == '\x0c'

/-- Python `str.lower()`, per character (agrees with CPython on ASCII). -/
def pyLower (s : String) : String :=
  ⟨s.data.map Char.toLower⟩

/-- `needle` is a prefix of `hay` (exact characters). -/
def listPre : List Char → List Char → Bool
  | [], _ => true
  | _ :: _, [] => false
  | a :: as, b :: bs => a == b && listPre as bs

/-- `needle` occurs as a contiguous sublist of `hay`; Python's `needle in hay`. -/
def hasSub (hay needle : List Char) : Bool :=
  match hay with
  | [] => needle.isEmpty
  | _ :: t => listPre needle hay || hasSub t needle

/-- Python's `needle in hay` on strings (case-sensitive). -/
def strHas (hay needle : String) : Bool :=
  hasSub hay.data needle.data

/-- Case-insensitive prefix test (both sides lowered per character). -/
def ciPre : List Char → List Char → Bool
  | [], _ => true
  | _ :: _, [] => false
  | a :: as, b :: bs => a.toLower == b.toLower && ciPre as bs

/-- The suffix of `hay` that follows the first (leftmost) case-insensitive
occurrence of `needle`, or `none` when `needle` does not occur. This is the
scan performed by `re.search` for a literal pattern under `re.IGNORECASE`. -/
def afterFirstCI (needle : List Char) : List Char → Option (List Char)
  | [] => if needle.isEmpty then some [] else none
  | c :: t =>
    if ciPre needle (c :: t) then some (List.drop needle.length (c :: t))
    else afterFirstCI needle t

/-- Python `str.strip()` on a character list (ASCII whitespace). -/
def stripL (l : List Char) : List Char :=
  ((l.dropWhile pyIsSpace).reverse.dropWhile pyIsSpace).reverse

/-- Python `str.strip()`. -/
def pyStrip (s : String) : String :=
  ⟨stripL s.data⟩

/-- Python `str.lstrip(chars)`: drop leading characters drawn from `chars`. -/
def lstripChars (chars : List Char) (l : List Char) : List Char :=
  l.dropWhile (fun c => chars.contains c)

/-- Python `str.split('\n')` (note `"".split('\n') == [""]`). -/
def splitNl : List Char → List (List Char)
  | [] => [[]]
  | c :: t =>
    if c == '\n' then [] :: splitNl t
    else
      match splitNl t with
      | [] => [[c]]
      | h :: r => (c :: h) :: r

/-- Python `"\n".join(lines)` on character lists. -/
def joinNl : List (List Char) → List Char
  | [] => []
  | [l] => l
  | l :: r => l ++ '\n' :: joinNl r

/-! ## Score Calculator (`app.py`, `calculate_meal_score`) -/

/-- The keyword accumulation of `calculate_meal_score` before the final
default branch: the six keyword groups fire independently and their deltas
add up (`score += ...` / `score -= ...` in the source). -/
def rawScore (assessment_text : String) : Int :=
  let text := pyLower assessment_text
  let score : Int := 0
  let score := if strHas text "healthy" || strHas text "good choice" ||
      strHas text "well-balanced" then score + 5 else score
  let score := if strHas text "low sugar" || strHas text "low fat" ||
      strHas text "low sodium" then score + 2 else score
  let score := if strHas text "high fiber" ||
      strHas text "good source of protein" then score + 3 else score
  let score := if strHas text "high sugar" || strHas text "high fat" ||
      strHas text "high sodium" || strHas text "unhealthy" then score - 4 else score
  let score := if strHas text "low protein" || strHas text "low fiber"
      then score - 1 else score
  let score := if strHas text "be cautious" || strHas text "consider alternatives"
      then score - 2 else score
  score

/-- `calculate_meal_score` from `app.py`: the keyword accumulation
(`rawScore`) followed by the default branch
`if score == 0 and len(text) > 10: score = 1`. -/
def calculate_meal_score (assessment_text : String) : Int :=
  let text := pyLower assessment_text
  let score := rawScore assessment_text
  if score = 0 ∧ text.length > 10 then 1 else score

/-- The sixteen keyword phrases of the Score Calculator, grouped with the
delta each group contributes (spec §4.1). -/
def keywordGroups : List (List String × Int) :=
  [ (["healthy", "good choice", "well-balanced"], 5),
    (["low sugar", "low fat", "low sodium"], 2),
    (["high fiber", "good source of protein"], 3),
    (["high sugar", "high fat", "high sodium", "unhealthy"], -4),
    (["low protein", "low fiber"], -1),
    (["be cautious", "consider alternatives"], -2) ]

/-- Spec-side description of the pre-default total: the sum, over all
keyword groups, of the group's delta when one of its phrases occurs
case-insensitively in the text. -/
def specKeywordTotal (s : String) : Int :=
  (keywordGroups.map (fun g =>
    if g.1.any (fun p => strHas (pyLower s) p) then g.2 else 0)).sum

/-- Every phrase of every keyword group. -/
def allPhrases : List String :=
  ["healthy", "good choice", "well-balanced",
   "low sugar", "low fat", "low sodium",
   "high fiber", "good source of protein",
   "high sugar", "high fat", "high sodium", "unhealthy",
   "low protein", "low fiber",
   "be cautious", "consider alternatives"]

/-- `s` contains none of the sixteen keyword phrases (case-insensitively). -/
def noKeywords (s : String) : Bool :=
  allPhrases.all (fun p => !(strHas (pyLower s) p))

theorem pyLower_length (s : String) : (pyLower s).length = s.length := by
  show (s.data.map Char.toLower).length = s.data.length
  exact List.length_map _ _

/-! ## Nutrition Rule Engine (`app.py`, `apply_rule_engine`) -/

/-- The `estimated_nutrition` dict: nutrient name → estimated amount.
`none` models an absent key; `dict.get(k, 0)` becomes `Option.getD · 0`. -/
structure Nutrition where
  calories : Option Int := none
  protein : Option Int := none
  fat : Option Int := none
  carbs : Option Int := none
  sugar : Option Int := none
  sodium : Option Int := none
  fiber : Option Int := none
deriving DecidableEq, Repr

/-- The `user_profile` dict: `age` and the free-text `health_conditions`.
`user_profile.get('health_conditions', '')` becomes `Option.getD · ""`. -/
structure Profile where
  age : Option Int := none
  health_conditions : Option String := none
deriving DecidableEq, Repr

/-- `apply_rule_engine` from `app.py`: five independent threshold rules,
each appending one note and adjusting the score delta; returns
`(notes, score_adjustment)`. The mutable pair of Python locals
`(notes, score_adjustment)` is threaded as the accumulator `acc`. -/
def apply_rule_engine (estimated_nutrition : Nutrition) (user_profile : Profile) :
    List String × Int :=
  let acc : List String × Int := ([], 0)
  let conditions := pyLower (user_profile.health_conditions.getD "")
  -- Rule 1: High Sugar & Diabetes
  let estimated_sugar := estimated_nutrition.sugar.getD 0
  let acc :=
    if strHas conditions "diabetes" && decide (estimated_sugar > 25) then
      (acc.1 ++ ["High estimated sugar content; may need caution for diabetes management."],
       acc.2 - 3)
    else acc
  -- Rule 2: High Sodium & Hypertension
  let estimated_sodium := estimated_nutrition.sodium.getD 0
  let acc :=
    if strHas conditions "hypertension" && decide (estimated_sodium > 800) then
      (acc.1 ++ ["High estimated sodium content; consider for hypertension."], acc.2 - 2)
    else acc
  -- Rule 3: Generally High Fat
  let acc :=
    if decide (estimated_nutrition.fat.getD 0 > 35) then
      (acc.1 ++ ["This meal appears relatively high in fat."], acc.2 - 1)
    else acc
  -- Rule 4: Good Fiber Source
  let acc :=
    if decide (estimated_nutrition.fiber.getD 0 > 7) then
      (acc.1 ++ ["Good source of dietary fiber."], acc.2 + 2)
    else acc
  -- Rule 5: High Protein
  let acc :=
    if decide (estimated_nutrition.protein.getD 0 > 30) then
      (acc.1 ++ ["High protein content."], acc.2 + 1)
    else acc
  acc

/-- One row of the reference rule table (spec §4.2): a firing condition, the
note it appends and the delta it contributes. -/
structure Rule where
  cond : Nutrition → Profile → Bool
  note : String
  delta : Int

/-- The reference rule table of spec §4.2, in its fixed order. Missing
nutrient keys count as 0; the condition match on `health_conditions` is a
case-insensitive substring test. -/
def ruleTable : List Rule :=
  [ { cond := fun n p => strHas (pyLower (p.health_conditions.getD "")) "diabetes"
          && decide (n.sugar.getD 0 > 25),
      note := "High estimated sugar content; may need caution for diabetes management.",
      delta := -3 },
    { cond := fun n p => strHas (pyLower (p.health_conditions.getD "")) "hypertension"
          && decide (n.sodium.getD 0 > 800),
      note := "High estimated sodium content; consider for hypertension.",
      delta := -2 },
    { cond := fun n _ => decide (n.fat.getD 0 > 35),
      note := "This meal appears relatively high in fat.",
      delta := -1 },
    { cond := fun n _ => decide (n.fiber.getD 0 > 7),
      note := "Good source of dietary fiber.",
      delta := 2 },
    { cond := fun n _ => decide (n.protein.getD 0 > 30),
      note := "High protein content.",
      delta := 1 } ]

/-- The rules of the reference table that fire on a given input. -/
def firedRules (n : Nutrition) (p : Profile) : List Rule :=
  ruleTable.filter (fun r => r.cond n p)

/-! ## Checker response field extraction (`app.py`, `checker` route)

The route runs three `re.search` calls on the AI response under
`re.IGNORECASE` (the second and third also under `re.DOTALL`):

* `## Meal Name\s*\n*(.*)` — first line of text after the heading;
* `## Estimated Nutrition\s*\n*(.*?)(?=\n## Healthiness Assessment|\Z)` —
  lazy capture up to the next assessment heading or end of text;
* `## Healthiness Assessment\s*\n*(.*)` — everything to the end.

For a literal heading followed by `\s*` and a sub-pattern that always
matches, `re.search` reduces to: find the leftmost case-insensitive
occurrence of the heading, greedily skip whitespace, then capture. Each
result is `.strip()`-ped; an absent heading yields a fixed placeholder. -/

/-- Lazy capture with lookahead: the shortest prefix of the input whose
remainder starts (case-insensitively) with `needle` or is empty — the
semantics of `(.*?)(?=needle|\Z)` under `re.DOTALL`. -/
def takeUntilLA (needle : List Char) : List Char → List Char
  | [] => []
  | c :: t => if ciPre needle (c :: t) then [] else c :: takeUntilLA needle t

/-- Extraction of the meal name:
`re.search(r"## Meal Name\s*\n*(.*)", analysis_result, re.IGNORECASE)`,
then `.group(1).strip()`, defaulting to `"Unknown Meal (Parsing Failed)"`. -/
def extractMealName (analysis_result : String) : String :=
  match afterFirstCI "## meal name".data analysis_result.data with
  | none => "Unknown Meal (Parsing Failed)"
  | some rest =>
    let afterWs := rest.dropWhile pyIsSpace
    ⟨stripL (afterWs.takeWhile (fun c => c != '\n'))⟩

/-- Extraction of the nutrition text:
`re.search(r"## Estimated Nutrition\s*\n*(.*?)(?=\n## Healthiness Assessment|\Z)",
analysis_result, re.DOTALL | re.IGNORECASE)`, then `.group(1).strip()`,
defaulting to `"Nutrition info could not be extracted."`. -/
def extractNutrition (analysis_result : String) : String :=
  match afterFirstCI "## estimated nutrition".data analysis_result.data with
  | none => "Nutrition info could not be extracted."
  | some rest =>
    let afterWs := rest.dropWhile pyIsSpace
    ⟨stripL (takeUntilLA "\n## healthiness assessment".data afterWs)⟩

/-- Extraction of the assessment text:
`re.search(r"## Healthiness Assessment\s*\n*(.*)", analysis_result,
re.DOTALL | re.IGNORECASE)`, then `.group(1).strip()`, defaulting to
`"Assessment could not be extracted."`. -/
def extractAssessment (analysis_result : String) : String :=
  match afterFirstCI "## healthiness assessment".data analysis_result.data with
  | none => "Assessment could not be extracted."
  | some rest =>
    let afterWs := rest.dropWhile pyIsSpace
    ⟨stripL afterWs⟩

/-! ## Recipe Response Parser (`app.py`, `parse_multi_recipes`)

The source finds all blocks of
`---\s*RECIPE START\s*---(.*?)---\s*RECIPE END\s*---`
(`re.DOTALL | re.IGNORECASE`, non-overlapping, left to right, lazy capture),
then accumulates labelled fields from each block's lines. -/

/-- Drop an exact prefix, or fail. -/
def dropPre : List Char → List Char → Option (List Char)
  | [], cs => some cs
  | _ :: _, [] => none
  | p :: ps, c :: cs => if p == c then dropPre ps cs else none

/-- Drop a case-insensitive prefix, or fail. -/
def dropCi : List Char → List Char → Option (List Char)
  | [], cs => some cs
  | _ :: _, [] => none
  | p :: ps, c :: cs => if p.toLower == c.toLower then dropCi ps cs else none

/-- Match `---\s*word\s*---` at the head of the input and return the rest.
The greedy `\s*` runs are unambiguous because neither `-` nor the first
letter of the word is whitespace. -/
def matchSentinel (word : List Char) (cs : List Char) : Option (List Char) := do
  let r1 ← dropPre "---".data cs
  let r3 ← dropCi word (r1.dropWhile pyIsSpace)
  dropPre "---".data (r3.dropWhile pyIsSpace)

/-- Lazy capture of `(.*?)` up to the end sentinel `---\s*RECIPE END\s*---`:
at each position, first try the end sentinel; on success return the
accumulated capture and the rest, otherwise consume one character. -/
def scanToEnd (cs acc : List Char) : Option (List Char × List Char) :=
  match matchSentinel "recipe end".data cs with
  | some rest => some (acc.reverse, rest)
  | none =>
    match cs with
    | [] => none
    | c :: t => scanToEnd t (c :: acc)

/-- `re.findall` scan: try a full match at each position from the left; on a
full match emit the capture and resume after it, otherwise advance one
character. The fuel argument (initially the input length, which always
suffices since every step consumes at least one character) makes the
recursion structural. -/
def findBlocksAux : Nat → List Char → List (List Char)
  | 0, _ => []
  | _, [] => []
  | fuel + 1, c :: t =>
    match matchSentinel "recipe start".data (c :: t) with
    | some afterStart =>
      match scanToEnd afterStart [] with
      | some (cap, rest) => cap :: findBlocksAux fuel rest
      | none => findBlocksAux fuel t
    | none => findBlocksAux fuel t

/-- All captures of the recipe-block pattern, left to right. -/
def findBlocks (cs : List Char) : List (List Char) :=
  findBlocksAux cs.length cs

/-- The field keys of `key_map` (dict keys on the Python side). -/
inductive FieldKey where
  | name | youtube_search_terms | prep_time | taste | ingredients | instructions | nutrition
deriving DecidableEq, Repr

/-- `key_map` from the source, in insertion (iteration) order. -/
def keyMap : List (String × FieldKey) :=
  [ ("meal name", .name),
    ("youtube search terms", .youtube_search_terms),
    ("preparation time", .prep_time),
    ("taste profile", .taste),
    ("ingredients", .ingredients),
    ("instructions", .instructions),
    ("estimated nutrition", .nutrition) ]

/-- The `recipe_data` dict: one optional string per possible key. -/
structure RecipeData where
  name : Option String := none
  youtube_search_terms : Option String := none
  prep_time : Option String := none
  taste : Option String := none
  ingredients : Option String := none
  instructions : Option String := none
  nutrition : Option String := none
  youtube_search_url : Option String := none
deriving DecidableEq, Repr

/-- `recipe_data[key] = value` (dict store overwrites). -/
def setField (k : FieldKey) (v : String) (d : RecipeData) : RecipeData :=
  match k with
  | .name => { d with name := some v }
  | .youtube_search_terms => { d with youtube_search_terms := some v }
  | .prep_time => { d with prep_time := some v }
  | .taste => { d with taste := some v }
  | .ingredients => { d with ingredients := some v }
  | .instructions => { d with instructions := some v }
  | .nutrition => { d with nutrition := some v }

/-- First `key_map` entry whose `"<label>:"` is a prefix of the lowered
line (`line.lower().startswith(key_text + ":")`). -/
def findKey : List (String × FieldKey) → List Char → Option (String × FieldKey)
  | [], _ => none
  | (kt, kj) :: rest, line =>
    if listPre (kt.data ++ [':']) (line.map Char.toLower) then some (kt, kj)
    else findKey rest line

/-- The loop state of the per-block scan: the dict built so far, the field
currently open, and its accumulated lines. -/
structure ParseState where
  data : RecipeData
  currentKey : Option FieldKey
  currentValue : List String

/-- `recipe_data[current_key] = "\n".join(current_value).strip()` when a
field is open (identity otherwise). -/
def flushField (st : ParseState) : RecipeData :=
  match st.currentKey with
  | none => st.data
  | some k => setField k (pyStrip (String.intercalate "\n" st.currentValue)) st.data

/-- One iteration of the per-line loop: strip the line, skip it when blank,
open a new field on a label match (flushing the previous one and seeding
the field with the stripped remainder of the line), otherwise append the
line to the open field if any. -/
def stepLine (st : ParseState) (rawLine : List Char) : ParseState :=
  let line := stripL rawLine
  if line.isEmpty then st
  else
    match findKey keyMap line with
    | some (kt, kj) =>
      { data := flushField st,
        currentKey := some kj,
        currentValue := [⟨stripL (line.drop (kt.length + 1))⟩] }
    | none =>
      match st.currentKey with
      | some _ => { st with currentValue := st.currentValue ++ [⟨line⟩] }
      | none => st

/-- The accumulated `recipe_data` of one block:
`lines = match.strip().split('\n')`, the per-line loop, and the final
flush of the last open field. -/
def accumFields (b : List Char) : RecipeData :=
  flushField ((splitNl (stripL b)).foldl stepLine
    { data := {}, currentKey := none, currentValue := [] })

/-- Python truthiness of `dict.get(k)`: present and non-empty. -/
def truthy : Option String → Bool
  | none => false
  | some s => !s.isEmpty

/-- Uppercase hex digit of a value below 16. -/
def hexDigit (n : Nat) : Char :=
  if n < 10 then Char.ofNat (48 + n) else Char.ofNat (65 + (n - 10))

/-- `urllib.parse.quote_plus` on one UTF-8 byte: unreserved characters kept,
space to `+`, everything else percent-encoded. -/
def quotePlusByte (b : UInt8) : List Char :=
  let n := b.toNat
  if (48 ≤ n ∧ n ≤ 57) ∨ (65 ≤ n ∧ n ≤ 90) ∨ (97 ≤ n ∧ n ≤ 122) ∨
      n = 45 ∨ n = 95 ∨ n = 46 ∨ n = 126 then [Char.ofNat n]
  else if n = 32 then ['+']
  else ['%', hexDigit (n / 16), hexDigit (n % 16)]

/-- `urllib.parse.quote_plus` over the UTF-8 bytes of the string. -/
def quote_plus (s : String) : String :=
  ⟨(s.toUTF8.data.toList.map quotePlusByte).flatten⟩

/-- Cleanup of the ingredients field:
`"\n".join([l.strip().lstrip('-* ') for l in x.split('\n')])`. -/
def cleanupIngr (s : String) : String :=
  String.intercalate "\n"
    ((splitNl s.data).map (fun l => ⟨lstripChars "-* ".data (stripL l)⟩))

/-- Cleanup of the instructions field:
`"\n".join([l.strip().lstrip('0123456789.* ') for l in x.split('\n')])`. -/
def cleanupInstr (s : String) : String :=
  String.intercalate "\n"
    ((splitNl s.data).map (fun l => ⟨lstripChars "0123456789.* ".data (stripL l)⟩))

/-- Post-processing of an accepted block: clean the non-empty
ingredients/instructions fields and derive the YouTube search URL when
search terms are present and non-empty. -/
def postProcess (d : RecipeData) : RecipeData :=
  let d := if truthy d.ingredients then
      { d with ingredients := d.ingredients.map cleanupIngr } else d
  let d := if truthy d.instructions then
      { d with instructions := d.instructions.map cleanupInstr } else d
  match d.youtube_search_terms with
  | some terms =>
    if !terms.isEmpty then
      let url := "https://www.youtube.com/results?search_query=" ++ quote_plus terms
      { d with youtube_search_url := some url }
    else d
  | none => d

/-- One block of the parser: accumulate the fields, accept the block only
when the name is non-empty and at least one of ingredients/instructions is
non-empty (`if recipe_data.get("name") and (recipe_data.get("ingredients")
or recipe_data.get("instructions"))`), and post-process accepted blocks;
rejected blocks yield `none`. -/
def processBlock (b : List Char) : Option RecipeData :=
  let d := accumFields b
  if truthy d.name && (truthy d.ingredients || truthy d.instructions) then
    some (postProcess d)
  else none

/-- The synthetic fallback record
`{"name": "Recipe Details (Parsing Failed)", "instructions": text_response}`. -/
def fallbackRecord (text_response : String) : RecipeData :=
  { name := some "Recipe Details (Parsing Failed)",
    instructions := some text_response }

/-- `parse_multi_recipes` from `app.py`: all accepted blocks in order; if
none were accepted and the raw response is longer than 50 characters,
a single synthetic fallback record instead. -/
def parse_multi_recipes (text_response : String) : List RecipeData :=
  let recipes := (findBlocks text_response.data).filterMap processBlock
  if recipes.isEmpty && decide (text_response.length > 50) then
    [fallbackRecord text_response]
  else recipes

/-- Spec-side acceptance condition (spec §4.3): a block is accepted only if
it has a non-empty name and a non-empty ingredients or instructions field. -/
def specAccept (d : RecipeData) : Prop :=
  (∃ s, d.name = some s ∧ s ≠ "") ∧
  ((∃ s, d.ingredients = some s ∧ s ≠ "") ∨ (∃ s, d.instructions = some s ∧ s ≠ ""))

/-! ## Persistence state and the checker flow (`database.py`, `app.py`)

`update_user_score` runs
`UPDATE users SET total_health_score = total_health_score + ? WHERE id = ?`
and `add_checked_meal` inserts one row into `checked_meals`; both are
modelled as pure updates of an explicit database state (timestamps, which
carry no claim-relevant information, are omitted). -/

/-- A row of the `users` table. -/
structure UserRow where
  id : Nat
  username : String
  age : Option Int := none
  health_conditions : Option String := none
  total_health_score : Int := 0
deriving DecidableEq, Repr

/-- A row of the `checked_meals` table. -/
structure CheckedMealRow where
  user_id : Nat
  meal_name : String
  estimated_nutrition : String
  health_assessment : String
  assigned_score : Int
  image_filename : Option String
deriving DecidableEq, Repr

/-- The database state: the `users` table and the append-only
`checked_meals` table. -/
structure DbState where
  users : List UserRow
  checked_meals : List CheckedMealRow
deriving DecidableEq, Repr

/-- `update_user_score` from `database.py`: add `points_to_add` to the
`total_health_score` of every row whose `id` matches (the SQL `UPDATE ...
WHERE id = ?`). -/
def update_user_score (user_id : Nat) (points_to_add : Int) (st : DbState) : DbState :=
  { st with users := st.users.map (fun u =>
      if u.id = user_id then
        { u with total_health_score := u.total_health_score + points_to_add }
      else u) }

/-- `add_checked_meal` from `database.py`: append one row to
`checked_meals`. -/
def add_checked_meal (user_id : Nat) (meal_name nutrition assessment : String)
    (score : Int) (image_filename : Option String) (st : DbState) : DbState :=
  { st with checked_meals := st.checked_meals ++
      [{ user_id := user_id, meal_name := meal_name,
         estimated_nutrition := nutrition, health_assessment := assessment,
         assigned_score := score, image_filename := image_filename }] }

/-- The post-response portion of the `checker` route: extract the three
fields from the AI analysis, score the assessment once, log the checked
meal, then add the same score to the user's cumulative total. -/
def checkerProcess (analysis_result : String) (user_id : Nat)
    (filename : String) (st : DbState) : DbState :=
  let meal_name := extractMealName analysis_result
  let nutrition_text := extractNutrition analysis_result
  let assessment_text := extractAssessment analysis_result
  let assigned_score := calculate_meal_score assessment_text
  let st := add_checked_meal user_id meal_name nutrition_text assessment_text
    assigned_score (some filename) st
  update_user_score user_id assigned_score st

/-! ## Claims -/

/-- All phrases other than `"healthy"` and `"high sugar"` are absent, while
those two are present (the "no other matching phrase" scenario of the
additivity claim). -/
def onlyHealthyAndHighSugar (s : String) : Bool :=
  strHas (pyLower s) "healthy" && strHas (pyLower s) "high sugar" &&
  (["good choice", "well-balanced", "low sugar", "low fat", "low sodium",
    "high fiber", "good source of protein", "high fat", "high sodium",
    "unhealthy", "low protein", "low fiber", "be cautious",
    "consider alternatives"].all (fun p => !(strHas (pyLower s) p)))

/-- C1: for every assessment string containing none of the keyword phrases,
the Score Calculator returns 1 when the string is longer than 10 characters
and 0 when its length is at most 10 (including the empty string). -/
theorem score_calculator_default_and_zero (s : String) (h : noKeywords s = true) :
    calculate_meal_score s = if s.length > 10 then 1 else 0 := by
  simp only [noKeywords, allPhrases, List.all_cons, List.all_nil,
    Bool.and_eq_true, Bool.not_eq_true', and_true] at h
  obtain ⟨h1, h2, h3, h4, h5, h6, h7, h8, h9, h10, h11, h12, h13, h14, h15, h16⟩ := h
  have hraw : rawScore s = 0 := by
    simp [rawScore, h1, h2, h3, h4, h5, h6, h7, h8, h9, h10, h11, h12, h13, h14, h15, h16]
  simp [calculate_meal_score, hraw, pyLower_length]

/-- Witness for C1 at the 12-character string `"hello world!"` (score 1) and
the 2-character string `"hi"` (score 0). -/
theorem score_calculator_default_and_zero_witness :
    calculate_meal_score "hello world!" = 1 ∧ calculate_meal_score "hi" = 0 := by
  constructor
  · rw [score_calculator_default_and_zero "hello world!" (by decide)]
    decide
  · rw [score_calculator_default_and_zero "hi" (by decide)]
    decide

/-- C3: the Score Calculator's pre-default total is the sum, over the six
keyword groups, of the delta of every group one of whose phrases occurs
case-insensitively in the string; in particular a string containing both
`"healthy"` and `"high sugar"` and no other matching phrase scores
5 + (-4) = 1. -/
theorem score_keyword_deltas_additive (s : String) :
    rawScore s = specKeywordTotal s ∧
    (onlyHealthyAndHighSugar s = true → calculate_meal_score s = 1) := by
  constructor
  · simp only [rawScore, specKeywordTotal, keywordGroups, List.map,
      List.sum_cons, List.sum_nil, List.any_cons, List.any_nil,
      Bool.or_false, Bool.or_assoc, Bool.or_eq_true, or_assoc]
    split_ifs <;> omega
  · intro h
    simp only [onlyHealthyAndHighSugar, List.all_cons, List.all_nil,
      Bool.and_eq_true, Bool.not_eq_true', and_true] at h
    obtain ⟨⟨hp1, hp2⟩, h1, h2, h3, h4, h5, h6, h7, h8, h9, h10, h11, h12, h13, h14⟩ := h
    have hraw : rawScore s = 1 := by
      simp [rawScore, hp1, hp2, h1, h2, h3, h4, h5, h6, h7, h8, h9, h10,
        h11, h12, h13, h14]
    simp [calculate_meal_score, hraw]

/-- Witness for C3 at a string containing exactly the phrases `"healthy"`
and `"high sugar"`. -/
theorem score_keyword_deltas_additive_witness :
    calculate_meal_score "This looks healthy but it is high sugar." = 1 :=
  (score_keyword_deltas_additive "This looks healthy but it is high sugar.").2
    (by decide)

set_option maxHeartbeats 1600000 in
/-- C2: the Nutrition Rule Engine equals the reference rule table —
the fired rules of the fixed five-rule table, in order, give exactly the
notes and the summed delta — and the three concrete examples of the claim
evaluate as stated. -/
theorem rule_engine_matches_reference_table :
    (∀ n p, apply_rule_engine n p =
      ((firedRules n p).map Rule.note, ((firedRules n p).map Rule.delta).sum)) ∧
    apply_rule_engine { sugar := some 30 } { health_conditions := some "type 2 diabetes" } =
      (["High estimated sugar content; may need caution for diabetes management."], -3) ∧
    apply_rule_engine { sugar := some 20 } { health_conditions := some "type 2 diabetes" } =
      ([], 0) ∧
    apply_rule_engine { fiber := some 8, protein := some 35 } { health_conditions := some "" } =
      (["Good source of dietary fiber.", "High protein content."], 3) := by
  refine ⟨fun n p => ?_, by decide, by decide, by decide⟩
  by_cases h1 : strHas (pyLower (p.health_conditions.getD "")) "diabetes"
      && decide (n.sugar.getD 0 > 25) <;>
    by_cases h2 : strHas (pyLower (p.health_conditions.getD "")) "hypertension"
        && decide (n.sodium.getD 0 > 800) <;>
      by_cases h3 : decide (n.fat.getD 0 > 35) <;>
        by_cases h4 : decide (n.fiber.getD 0 > 7) <;>
          by_cases h5 : decide (n.protein.getD 0 > 30) <;>
            simp [apply_rule_engine, firedRules, ruleTable, List.filter, h1, h2, h3, h4, h5]

/-- C10: the Rule Engine output depends only on the profile's
`health_conditions` and the `sugar`, `sodium`, `fat`, `fiber` and `protein`
nutrient values; `age`, `calories` and `carbs` never influence it. -/
theorem rule_engine_noninterference (n1 n2 : Nutrition) (p1 p2 : Profile)
    (hc : p1.health_conditions = p2.health_conditions)
    (hsugar : n1.sugar = n2.sugar) (hsodium : n1.sodium = n2.sodium)
    (hfat : n1.fat = n2.fat) (hfiber : n1.fiber = n2.fiber)
    (hprotein : n1.protein = n2.protein) :
    apply_rule_engine n1 p1 = apply_rule_engine n2 p2 := by
  simp only [apply_rule_engine, hc, hsugar, hsodium, hfat, hfiber, hprotein]

/-- Helper: Python truthiness of an optional string amounts to being
present and non-empty. -/
theorem truthy_iff (o : Option String) : truthy o = true ↔ ∃ s, o = some s ∧ s ≠ "" := by
  cases o with
  | none => simp [truthy]
  | some s =>
    constructor
    · intro h
      refine ⟨s, rfl, fun hs => ?_⟩
      rw [hs] at h
      exact absurd h (by decide)
    · rintro ⟨s2, h2, hs⟩
      injection h2 with h2
      subst h2
      show (!s.isEmpty) = true
      cases hb : s.isEmpty
      · rfl
      · exact absurd ((String.isEmpty_iff s).mp hb) hs

/-- C4: when zero recipes are accepted from the input, the Recipe Parser
returns exactly one synthetic record — instructions equal to the raw input,
name the fixed parse-failure sentinel — for inputs longer than 50
characters, and the empty sequence for inputs shorter than 50 characters
(it is a total function, so it never raises). -/
theorem recipe_fallback_policy (t : String)
    (h : (findBlocks t.data).filterMap processBlock = []) :
    (t.length > 50 → parse_multi_recipes t =
      [{ name := some "Recipe Details (Parsing Failed)", instructions := some t }]) ∧
    (t.length < 50 → parse_multi_recipes t = []) := by
  constructor
  · intro hl
    simp [parse_multi_recipes, fallbackRecord, h, hl]
  · intro hl
    have hng : ¬ (t.length > 50) := by omega
    simp [parse_multi_recipes, h, hng]

/-- Witness for C4 at a 74-character marker-free input (fallback) and a
16-character marker-free input (empty result). -/
theorem recipe_fallback_policy_witness :
    parse_multi_recipes
        "this is a long unstructured response with no recipe markers at all, sorry" =
      [{ name := some "Recipe Details (Parsing Failed)",
         instructions :=
           some "this is a long unstructured response with no recipe markers at all, sorry" }] ∧
    parse_multi_recipes "short no markers" = [] := by
  constructor
  · exact (recipe_fallback_policy
      "this is a long unstructured response with no recipe markers at all, sorry"
      (by decide)).1 (by decide)
  · exact (recipe_fallback_policy "short no markers" (by decide)).2 (by decide)

/-- C7: for every input longer than 50 characters from which zero recipes
are accepted, the parser returns the single fallback record carrying the
input as instructions, and feeding that instructions text back through the
parser returns the same single fallback record again. -/
theorem recipe_fallback_roundtrip (t : String) (h50 : 50 < t.length)
    (h : (findBlocks t.data).filterMap processBlock = []) :
    parse_multi_recipes t = [fallbackRecord t] ∧
    (∀ s, (fallbackRecord t).instructions = some s →
      parse_multi_recipes s = [fallbackRecord t]) := by
  have h1 : parse_multi_recipes t = [fallbackRecord t] := by
    simp [parse_multi_recipes, h, h50]
  refine ⟨h1, fun s hs => ?_⟩
  have hst : s = t := by
    simpa [fallbackRecord] using hs.symm
  rw [hst, h1]

/-- Witness for C7: the round trip at a concrete 74-character marker-free
input. -/
theorem recipe_fallback_roundtrip_witness :
    parse_multi_recipes
        "this is a long raw answer with no recipe markers anywhere inside it, alas" =
      [fallbackRecord
        "this is a long raw answer with no recipe markers anywhere inside it, alas"] ∧
    parse_multi_recipes
        ((fallbackRecord
          "this is a long raw answer with no recipe markers anywhere inside it, alas").instructions.getD "") =
      [fallbackRecord
        "this is a long raw answer with no recipe markers anywhere inside it, alas"] := by
  have h := recipe_fallback_roundtrip
    "this is a long raw answer with no recipe markers anywhere inside it, alas"
    (by decide) (by decide)
  exact ⟨h.1, h.2 _ rfl⟩

/-- C6: a marker-delimited block yields a ParsedRecipe if and only if its
accumulated fields have a non-empty name and a non-empty ingredients or
instructions field; a failing block yields `none` and contributes no record
to the parsed sequence. -/
theorem recipe_block_acceptance (b : List Char) (bs : List (List Char)) :
    ((∃ r, processBlock b = some r) ↔ specAccept (accumFields b)) ∧
    (processBlock b = none →
      (b :: bs).filterMap processBlock = bs.filterMap processBlock) := by
  constructor
  · unfold processBlock specAccept
    rcases hn : truthy (accumFields b).name with _ | _ <;>
      rcases hi : truthy (accumFields b).ingredients with _ | _ <;>
        rcases hins : truthy (accumFields b).instructions with _ | _ <;>
          simp_all [truthy_iff, ← truthy_iff, hn, hi, hins]
  · intro h
    simp [List.filterMap_cons, h]

/-- Witness for C6: a block with a name and one ingredient is accepted; a
block with only a name is dropped and contributes nothing. -/
theorem recipe_block_acceptance_witness :
    (∃ r, processBlock "Meal Name: X\nIngredients:\n- rice".data = some r) ∧
    ("Meal Name: X".data :: ["Meal Name: X\nIngredients:\n- rice".data]).filterMap
        processBlock =
      ["Meal Name: X\nIngredients:\n- rice".data].filterMap processBlock := by
  constructor
  · exact (recipe_block_acceptance "Meal Name: X\nIngredients:\n- rice".data []).1.mpr
      ⟨⟨"X", by decide, by decide⟩, Or.inl ⟨"- rice", by decide, by decide⟩⟩
  · exact (recipe_block_acceptance "Meal Name: X".data
      ["Meal Name: X\nIngredients:\n- rice".data]).2 (by decide)

/-- C5: the Checker Response Parser is total and substitutes the fixed
placeholder for each field whose heading is absent (first-match,
case-insensitive search); on a response carrying meal-name and nutrition
headings but no "## Healthiness Assessment" heading, the assessment is the
placeholder while the other two fields are still extracted. -/
theorem checker_placeholder_policy :
    (∀ t : String, afterFirstCI "## meal name".data t.data = none →
      extractMealName t = "Unknown Meal (Parsing Failed)") ∧
    (∀ t : String, afterFirstCI "## estimated nutrition".data t.data = none →
      extractNutrition t = "Nutrition info could not be extracted.") ∧
    (∀ t : String, afterFirstCI "## healthiness assessment".data t.data = none →
      extractAssessment t = "Assessment could not be extracted.") ∧
    (extractMealName "## Meal Name\nPasta Bake\n## Estimated Nutrition\nCalories: 400" =
        "Pasta Bake" ∧
      extractNutrition "## Meal Name\nPasta Bake\n## Estimated Nutrition\nCalories: 400" =
        "Calories: 400" ∧
      extractAssessment "## Meal Name\nPasta Bake\n## Estimated Nutrition\nCalories: 400" =
        "Assessment could not be extracted.") := by
  refine ⟨fun t h => ?_, fun t h => ?_, fun t h => ?_, by decide, by decide, by decide⟩
  · simp [extractMealName, h]
  · simp [extractNutrition, h]
  · simp [extractAssessment, h]

/-- Witness for C5: each placeholder branch applied at a heading-free
concrete input. -/
theorem checker_placeholder_policy_witness :
    extractMealName "no headings here" = "Unknown Meal (Parsing Failed)" ∧
    extractNutrition "no headings here" = "Nutrition info could not be extracted." ∧
    extractAssessment "no headings here" = "Assessment could not be extracted." :=
  ⟨checker_placeholder_policy.1 "no headings here" (by decide),
   checker_placeholder_policy.2.1 "no headings here" (by decide),
   checker_placeholder_policy.2.2.1 "no headings here" (by decide)⟩

/-- C8: the checker flow appends exactly one CheckedMealRecord whose
`assigned_score` is `calculate_meal_score` of the extracted assessment, and
adds that very same value to the cumulative health score of the owning
user — the §3 invariant. -/
theorem checker_score_consistency (analysis : String) (uid : Nat)
    (fname : String) (st : DbState) :
    (checkerProcess analysis uid fname st).checked_meals =
      st.checked_meals ++
        [{ user_id := uid,
           meal_name := extractMealName analysis,
           estimated_nutrition := extractNutrition analysis,
           health_assessment := extractAssessment analysis,
           assigned_score := calculate_meal_score (extractAssessment analysis),
           image_filename := some fname }] ∧
    (checkerProcess analysis uid fname st).users =
      st.users.map (fun u =>
        if u.id = uid then
          { u with total_health_score :=
              u.total_health_score + calculate_meal_score (extractAssessment analysis) }
        else u) := by
  constructor <;> simp [checkerProcess, add_checked_meal, update_user_score]

/-- C9: when the "## Healthiness Assessment" heading is absent, the checker
scores the placeholder text itself — no keyword phrase, longer than 10
characters — so the assigned score is 1 and the user's cumulative health
score rises by 1. -/
theorem missing_assessment_scores_one (analysis : String) (uid : Nat)
    (fname : String) (st : DbState)
    (h : afterFirstCI "## healthiness assessment".data analysis.data = none) :
    extractAssessment analysis = "Assessment could not be extracted." ∧
    calculate_meal_score (extractAssessment analysis) = 1 ∧
    (checkerProcess analysis uid fname st).users =
      st.users.map (fun u =>
        if u.id = uid then
          { u with total_health_score := u.total_health_score + 1 }
        else u) := by
  have h1 : extractAssessment analysis = "Assessment could not be extracted." := by
    simp [extractAssessment, h]
  have h2 : calculate_meal_score (extractAssessment analysis) = 1 := by
    rw [h1]; decide
  refine ⟨h1, h2, ?_⟩
  simp [checkerProcess, add_checked_meal, update_user_score, h2]

/-- Witness for C9: a response with only a meal-name heading raises the one
matching user's cumulative score from 4 to 5. -/
theorem missing_assessment_scores_one_witness :
    (checkerProcess "## Meal Name\nPasta" 1 "img.png"
        { users := [{ id := 1, username := "alice", total_health_score := 4 }],
          checked_meals := [] }).users =
      [{ id := 1, username := "alice", total_health_score := 5 }] := by
  have h := missing_assessment_scores_one "## Meal Name\nPasta" 1 "img.png"
    { users := [{ id := 1, username := "alice", total_health_score := 4 }],
      checked_meals := [] } (by decide)
  rw [h.2.2]
  decide

/-- Witness for C10: two inputs differing in `age`, `calories` and `carbs`
but agreeing on everything the engine reads produce the same output. -/
theorem rule_engine_noninterference_witness :
    apply_rule_engine
        { calories := some 550, carbs := some 40, sugar := some 30 }
        { age := some 45, health_conditions := some "diabetes" } =
      apply_rule_engine
        { sugar := some 30 }
        { health_conditions := some "diabetes" } :=
  rule_engine_noninterference _ _ _ _ rfl rfl rfl rfl rfl rfl
